import Mathlib

/-!
Verification of the 0xvm-bvm execution core against its specification.

The definitions below are a shallow embedding of the Python sources:

* xvm/exceptions.py          — the VM error-kind hierarchy and its gas flags
* xvm/vm/computation.py      — memory_gas_cost
* xvm/vm/base.py             — VM.apply_transaction, VM.apply_all_transactions,
                               VM.import_block (the destructuring step)
* xvm/chains/base.py         — BaseChain.get_vm_class_for_block_number,
                               BaseChain.validate_chain, Chain.import_block,
                               Chain.build_block_with_transactions,
                               MiningChain.mine_all (their destructuring steps)

State, tries, receipts and headers live in collaborator modules that are
consumed through interfaces; they appear here either as explicit function
parameters or as small models whose doc comments say what they stand for.
-/

namespace XVM

/-- Kinds of `VMError` subclasses defined in xvm/exceptions.py (lines 159-264).
Each constructor is one concrete subclass of `VMError`. -/
inductive VMErrorKind where
  | outOfGas
  | insufficientStack
  | fullStack
  | invalidJumpDestination
  | invalidInstruction
  | insufficientFunds
  | stackDepthLimit
  | contractCreationCollision
  | incorrectContractCreationAddress
  | revert
  | writeProtection
  | outOfBoundsRead
  | reservedBytesInCode
deriving DecidableEq, Repr

/-- Class attribute `burns_gas` of each `VMError` subclass: the base class
sets `burns_gas = True` (exceptions.py line 164) and only `Revert`
overrides it to `False` (line 238). -/
def burns_gas : VMErrorKind → Bool
  | .revert => false
  | _ => true

/-- Class attribute `erases_return_data` of each `VMError` subclass: the base
class sets `erases_return_data = True` (exceptions.py line 165) and only
`Revert` overrides it to `False` (line 239). -/
def erases_return_data : VMErrorKind → Bool
  | .revert => false
  | _ => true

/-- Modelled from the spec: `xvm._utils.numeric.ceil32` is imported by
xvm/vm/computation.py but its module is not among the sources; the spec
describes the memory cost as "computed on the 32-byte-rounded size", so
`ceil32` rounds its argument up to the next multiple of 32. -/
def ceil32 (n : Nat) : Nat :=
  if n % 32 = 0 then n else n + 32 - n % 32

/-- Modelled from the spec: `GAS_MEMORY` is imported from xvm/constants.py,
which is not among the sources; the spec calls it `LINEAR_COST`, the
per-word linear memory price. The canonical gas schedule value is 3. -/
def GAS_MEMORY : Nat := 3

/-- Modelled from the spec: `GAS_MEMORY_QUADRATIC_DENOMINATOR` is imported
from xvm/constants.py, which is not among the sources; the spec calls it
`QUADRATIC_DENOMINATOR`. The canonical gas schedule value is 512. -/
def GAS_MEMORY_QUADRATIC_DENOMINATOR : Nat := 512

/-- Embedding of `memory_gas_cost` (xvm/vm/computation.py lines 89-95):
words are the 32-byte-rounded size divided by 32; the total cost is the
linear cost `words * GAS_MEMORY` plus the quadratic cost
`words ** 2 // GAS_MEMORY_QUADRATIC_DENOMINATOR`. -/
def memory_gas_cost (size_in_bytes : Nat) : Nat :=
  let size_in_words := ceil32 size_in_bytes / 32
  let linear_cost := size_in_words * GAS_MEMORY
  let quadratic_cost := size_in_words ^ 2 / GAS_MEMORY_QUADRATIC_DENOMINATOR
  linear_cost + quadratic_cost

/-- Entries of the state journal. The State collaborator is consumed, not
implemented, by the sources (spec section 6: `snapshot() -> token`,
`revert(token)`, `commit(token)`); its journal records account/storage
mutations (`change`), the un-revertable marks laid down by
`lock_changes()` (vm/base.py line 178), and open snapshot checkpoints.
Most recent entry first. -/
inductive JournalEntry where
  | change (key : Nat)
  | lock
  | checkpoint (token : Nat)
deriving DecidableEq, Repr

/-- Modelled from the spec: the State collaborator's mutable view (spec
sections 3 and 6), reduced to its journal plus a fresh-token counter.
Its implementation module (xvm.vm.state) is not among the sources. -/
structure VMState where
  journal : List JournalEntry
  next_token : Nat
deriving DecidableEq, Repr

/-- Modelled from the spec: `state.snapshot()` returns an opaque token
identifying a point in the journal history (spec section 3); the model
pushes a checkpoint entry and hands back its token. -/
def VMState.snapshot (st : VMState) : Nat × VMState :=
  (st.next_token, ⟨.checkpoint st.next_token :: st.journal, st.next_token + 1⟩)

/-- Discard journal entries through (and including) the checkpoint carrying
the given token; helper for `VMState.revert`. -/
def drop_through_checkpoint (token : Nat) : List JournalEntry → List JournalEntry
  | [] => []
  | .checkpoint t :: rest =>
    if t = token then rest else drop_through_checkpoint token rest
  | _ :: rest => drop_through_checkpoint token rest

/-- Modelled from the spec: `state.revert(token)` undoes all mutations
recorded since the token was issued (spec sections 3 and 6). -/
def VMState.revert (st : VMState) (token : Nat) : VMState :=
  ⟨drop_through_checkpoint token st.journal, st.next_token⟩

/-- Remove the checkpoint carrying the given token while keeping the
mutations recorded since it; helper for `VMState.commit`. -/
def remove_checkpoint (token : Nat) : List JournalEntry → List JournalEntry
  | [] => []
  | .checkpoint t :: rest =>
    if t = token then rest else .checkpoint t :: remove_checkpoint token rest
  | e :: rest => e :: remove_checkpoint token rest

/-- Modelled from the spec: `state.commit(token)` merges the mutations since
the token into the enclosing scope (spec section 6), i.e. resolves the
checkpoint without undoing anything. -/
def VMState.commit (st : VMState) (token : Nat) : VMState :=
  ⟨remove_checkpoint token st.journal, st.next_token⟩

/-- Modelled from the spec: `state.lock_changes()` marks the current state
as un-revertable from the VM's perspective (vm/base.py lines 177-178, spec
section 4.2); the model records the mark in the journal. -/
def VMState.lock_changes (st : VMState) : VMState :=
  ⟨.lock :: st.journal, st.next_token⟩

/-- The two exception families that `VM.apply_all_transactions` catches
around `apply_transaction` (vm/base.py lines 267-273):
`eth_utils.ValidationError` and `xvm.vm.interrupt.EVMMissingData`. -/
inductive TxErr where
  | validationError
  | evmMissingData
deriving DecidableEq, Repr

/-- The collaborator operations `VM.apply_transaction` and
`VM.apply_all_transactions` delegate to. `state_apply_transaction` is
`self.state.apply_transaction` (the State collaborator executes the
transaction, mutating the state and either producing a computation or
raising one of the two caught exception kinds, possibly after partial
mutation); `make_receipt`, `validate_receipt` and `add_receipt_to_header`
are abstract methods of VM filled in by the fork subclasses, which are not
among the sources; `block_number` reads the header field used by the guard
at the top of `apply_all_transactions` (vm/base.py line 248). -/
structure VMCollab (Tx Receipt Comp Header : Type) where
  state_apply_transaction : VMState → Tx → VMState × Except TxErr Comp
  make_receipt : Header → Tx → Comp → VMState → Receipt
  validate_receipt : Receipt → Except Unit Unit
  add_receipt_to_header : Header → Receipt → Header
  block_number : Header → Nat

/-- Embedding of `VM.apply_transaction` (vm/base.py lines 172-184): mark the
current state un-revertable with `lock_changes`, execute the transaction
through the state, build the receipt and validate it. A raised
`ValidationError` from receipt validation leaves the state as the execution
left it (Python exceptions do not undo prior mutations). -/
def apply_transaction {Tx Receipt Comp Header : Type}
    (c : VMCollab Tx Receipt Comp Header) (header : Header) (transaction : Tx)
    (st : VMState) : VMState × Except TxErr (Receipt × Comp) :=
  let st1 := st.lock_changes
  match c.state_apply_transaction st1 transaction with
  | (st2, .error e) => (st2, .error e)
  | (st2, .ok computation) =>
    let receipt := c.make_receipt header transaction computation st2
    match c.validate_receipt receipt with
    | .error _ => (st2, .error .validationError)
    | .ok _ => (st2, .ok (receipt, computation))

/-- Loop accumulator of `VM.apply_all_transactions` (vm/base.py lines
254-258): the rolling header and the three result lists. -/
structure TxAcc (Tx Receipt Comp Header : Type) where
  previous_header : Header
  applied_transactions : List Tx
  receipts : List Receipt
  computations : List Comp

/-- Failures that escape `VM.apply_all_transactions`: the
`eth_utils.ValidationError` raised by the block-number guard (vm/base.py
lines 248-252) and a propagated `EVMMissingData` (line 273). -/
inductive AllTxErr where
  | headerMismatch
  | evmMissingData
deriving DecidableEq, Repr

/-- Embedding of the transaction loop of `VM.apply_all_transactions`
(vm/base.py lines 260-294). Per transaction: take a snapshot, attempt
`apply_transaction`; on `ValidationError` skip the transaction and
continue with the state exactly as the failed attempt left it (no revert,
no commit); on `EVMMissingData` revert to the snapshot and propagate; on
success fold the receipt into the rolling header and extend the three
result lists. -/
def apply_all_transactions_go {Tx Receipt Comp Header : Type}
    (c : VMCollab Tx Receipt Comp Header) :
    List Tx → VMState → TxAcc Tx Receipt Comp Header →
    VMState × Except AllTxErr (Header × List Tx × List Receipt × List Comp)
  | [], st, acc =>
    (st, .ok (acc.previous_header, acc.applied_transactions,
              acc.receipts, acc.computations))
  | transaction :: rest, st, acc =>
    let snap := st.snapshot
    match apply_transaction c acc.previous_header transaction snap.2 with
    | (st1, .error .validationError) => apply_all_transactions_go c rest st1 acc
    | (st1, .error .evmMissingData) => (st1.revert snap.1, .error .evmMissingData)
    | (st1, .ok (receipt, computation)) =>
      let result_header := c.add_receipt_to_header acc.previous_header receipt
      apply_all_transactions_go c rest st1
        ⟨result_header, acc.applied_transactions ++ [transaction],
         acc.receipts ++ [receipt], acc.computations ++ [computation]⟩

/-- Embedding of `VM.apply_all_transactions` (vm/base.py lines 244-294):
guard that the target header's block number matches the VM's header, then
run the transaction loop and return the four-component result
`(result_header, applied_transactions, receipts, computations)`. -/
def apply_all_transactions {Tx Receipt Comp Header : Type}
    (c : VMCollab Tx Receipt Comp Header) (vm_header base_header : Header)
    (transactions : List Tx) (st : VMState) :
    VMState × Except AllTxErr (Header × List Tx × List Receipt × List Comp) :=
  if c.block_number base_header = c.block_number vm_header then
    apply_all_transactions_go c transactions st ⟨base_header, [], [], []⟩
  else
    (st, .error .headerMismatch)

/-- A Python value of one of the four component types that
`apply_all_transactions` packs into its returned tuple; used to model
tuple length and destructuring at the Python level. -/
inductive PyObj (Tx Receipt Comp Header : Type) where
  | headerVal (h : Header)
  | txsVal (l : List Tx)
  | receiptsVal (l : List Receipt)
  | compsVal (l : List Comp)
deriving DecidableEq, Repr

/-- The return statement of `VM.apply_all_transactions` (vm/base.py line
294) seen at the Python level: a normal return is the four-element tuple
`(result_header, applied_transactions_tuple, receipts_tuple,
computations_tuple)`. -/
def apply_all_transactions_py {Tx Receipt Comp Header : Type}
    (c : VMCollab Tx Receipt Comp Header) (vm_header base_header : Header)
    (transactions : List Tx) (st : VMState) :
    VMState × Except AllTxErr (List (PyObj Tx Receipt Comp Header)) :=
  match apply_all_transactions c vm_header base_header transactions st with
  | (st', .ok (h, a, r, cs)) =>
    (st', .ok [.headerVal h, .txsVal a, .receiptsVal r, .compsVal cs])
  | (st', .error e) => (st', .error e)

/-- Python raises `ValueError` when a tuple is destructured into the wrong
number of assignment targets. -/
inductive PyUnpackErr where
  | tooManyValues
  | notEnoughValues
deriving DecidableEq, Repr

/-- Python tuple destructuring into `k` plain assignment targets: succeeds
exactly when the unpacked tuple has length `k`, otherwise raises
`ValueError` (too many / not enough values to unpack). -/
def py_tuple_unpack {α : Type} (k : Nat) (vals : List α) :
    Except PyUnpackErr (List α) :=
  if vals.length = k then .ok vals
  else if k < vals.length then .error .tooManyValues
  else .error .notEnoughValues

/-- The destructuring `new_header, receipts, _ = self.apply_all_transactions(...)`
in `VM.import_block` (vm/base.py line 338): three assignment targets. -/
def import_block_destructure {Tx Receipt Comp Header : Type}
    (vals : List (PyObj Tx Receipt Comp Header)) :
    Except PyUnpackErr (List (PyObj Tx Receipt Comp Header)) :=
  py_tuple_unpack 3 vals

/-- The destructuring `new_header, receipts, computations =
vm.apply_all_transactions(...)` in `Chain.build_block_with_transactions`
(chains/base.py line 362): three assignment targets. -/
def build_block_with_transactions_destructure {Tx Receipt Comp Header : Type}
    (vals : List (PyObj Tx Receipt Comp Header)) :
    Except PyUnpackErr (List (PyObj Tx Receipt Comp Header)) :=
  py_tuple_unpack 3 vals

/-- The destructuring `new_header, receipts, computations =
vm.apply_all_transactions(...)` in `MiningChain.mine_all`
(chains/base.py line 607): three assignment targets. -/
def mine_all_destructure {Tx Receipt Comp Header : Type}
    (vals : List (PyObj Tx Receipt Comp Header)) :
    Except PyUnpackErr (List (PyObj Tx Receipt Comp Header)) :=
  py_tuple_unpack 3 vals

/-- Failure of `BaseChain.get_vm_class_for_block_number`: the `VMNotFound`
exception (chains/base.py line 130, exceptions.py lines 55-60), the
exception the spec calls `NoRuleSetAvailable`. -/
inductive ChainErr where
  | vmNotFound
deriving DecidableEq, Repr

/-- The `for ... in reversed(cls.vm_configuration)` loop of
`BaseChain.get_vm_class_for_block_number` (chains/base.py lines 126-128):
first entry of the reversed configuration whose start block is at most the
target block number. -/
def scan_reversed {V : Type} (block_number : Nat) :
    List (Nat × V) → Option V
  | [] => none
  | (start_block, vm_class) :: rest =>
    if block_number ≥ start_block then some vm_class
    else scan_reversed block_number rest

/-- Embedding of `BaseChain.get_vm_class_for_block_number` (chains/base.py
lines 116-130). `validate_block_number` (from xvm/validation.py, a module
not among the sources) checks its argument is a non-negative integer,
which every Nat satisfies, so it is a no-op here; the scan walks the
configuration in reverse and raises `VMNotFound` when no entry matches. -/
def get_vm_class_for_block_number {V : Type}
    (vm_configuration : List (Nat × V)) (block_number : Nat) :
    Except ChainErr V :=
  match scan_reversed block_number vm_configuration.reverse with
  | some vm_class => .ok vm_class
  | none => .error .vmNotFound

/-- The exception kinds relevant to the parent lookup in
`Chain.import_block`: `eth_utils.ValidationError` (raised at
chains/base.py line 459), and the repository's own `HeaderNotFound` and
`ParentNotFound` classes (exceptions.py lines 73-76 and 118-123). -/
inductive ChainImportExc where
  | validationError
  | headerNotFound
  | parentNotFound
deriving DecidableEq, Repr

/-- Embedding of the parent lookup opening `Chain.import_block`
(chains/base.py lines 453-463): `get_block_header_by_hash` consults the
chain database collaborator (modelled by `lookup_header`); when the parent
hash is absent the raised `HeaderNotFound` is caught and re-raised as
`eth_utils.ValidationError`, before any transaction is executed. The rest
of the import (header construction, VM execution, validation, persistence)
runs only when the parent was found and is abstracted as
`continue_import`. -/
def chain_import_block {Header R : Type}
    (lookup_header : Nat → Option Header)
    (continue_import : Header → Except ChainImportExc R)
    (parent_hash : Nat) : Except ChainImportExc R :=
  match lookup_header parent_hash with
  | none => .error .validationError
  | some parent_header => continue_import parent_header

/-- The two header fields `BaseChain.validate_chain` reads: a header's own
hash (computed by the hashing collaborator, carried here as a field) and
its declared parent hash. -/
structure HeaderLink where
  parent_hash : Nat
  header_hash : Nat
deriving DecidableEq, Repr

/-- Failures of `BaseChain.validate_chain`: the linkage `ValidationError`
(chains/base.py lines 157-162), the wrapped `validate_header` failure
(lines 164-169), and a `validate_seal` failure (line 172). -/
inductive ChainValidationErr where
  | invalidLink
  | invalidHeader
  | invalidSeal
deriving DecidableEq, Repr

/-- The indexed loop over `sliding_window(2, concatv([root], descendants))`
in `BaseChain.validate_chain` (chains/base.py lines 154-172): check the
parent-hash linkage of each adjacent pair, then the per-rule-set
`validate_header` (a VM collaborator method, passed as a parameter), then
`validate_seal` for the sampled indices. -/
def validate_chain_go
    (validate_header : HeaderLink → HeaderLink → Except Unit Unit)
    (validate_seal : HeaderLink → Except Unit Unit)
    (indices_to_check_seal : Nat → Bool) :
    Nat → HeaderLink → List HeaderLink → Except ChainValidationErr Unit
  | _, _, [] => .ok ()
  | index, parent, child :: rest =>
    if child.parent_hash ≠ parent.header_hash then .error .invalidLink
    else
      match validate_header child parent with
      | .error _ => .error .invalidHeader
      | .ok _ =>
        if indices_to_check_seal index then
          match validate_seal child with
          | .error _ => .error .invalidSeal
          | .ok _ =>
            validate_chain_go validate_header validate_seal
              indices_to_check_seal (index + 1) child rest
        else
          validate_chain_go validate_header validate_seal
            indices_to_check_seal (index + 1) child rest

/-- Embedding of `BaseChain.validate_chain` (chains/base.py lines 139-172):
choose the seal-check index set from the sample rate (all indices at rate
1, none at rate 0, otherwise the random sample, modelled by the `sample`
parameter), then run the pairwise loop. -/
def validate_chain
    (validate_header : HeaderLink → HeaderLink → Except Unit Unit)
    (validate_seal : HeaderLink → Except Unit Unit)
    (sample : Nat → Bool) (seal_check_random_sample_rate : Nat)
    (root : HeaderLink) (descendants : List HeaderLink) :
    Except ChainValidationErr Unit :=
  let indices_to_check_seal :=
    if seal_check_random_sample_rate = 1 then fun _ => true
    else if seal_check_random_sample_rate = 0 then fun _ => false
    else sample
  validate_chain_go validate_header validate_seal indices_to_check_seal
    0 root descendants

/-- A header sequence is correctly linked when every child's declared
parent hash equals its predecessor's hash; the property the spec's chain
linkage requirement quantifies over. -/
def chain_linked : HeaderLink → List HeaderLink → Bool
  | _, [] => true
  | parent, child :: rest =>
    child.parent_hash == parent.header_hash && chain_linked child rest

/-- Concrete State collaborator used by the witnesses: executing
transaction `tx` records one journal change; transaction 1 then raises
`ValidationError` (an intrinsically invalid transaction), transaction 4
raises `EVMMissingData` (a missing trie node), every other transaction
succeeds with computation `tx * 10`. -/
def demo_state_apply (st : VMState) (tx : Nat) : VMState × Except TxErr Nat :=
  let st' : VMState := ⟨.change tx :: st.journal, st.next_token⟩
  if tx = 1 then (st', .error .validationError)
  else if tx = 4 then (st', .error .evmMissingData)
  else (st', .ok (tx * 10))

/-- Concrete collaborator bundle used by the witnesses: receipts are
`tx + 1000`, receipt validation always passes, the rolling header adds the
receipt value, and every header has block number 0. -/
def demoCollab : VMCollab Nat Nat Nat Nat :=
  ⟨demo_state_apply, fun _ tx _ _ => tx + 1000, fun _ => .ok (),
   fun h r => h + r, fun _ => 0⟩

/-- C3: the explicit revert is the unique VM error kind that both preserves
the frame's unused gas for the caller and keeps its output bytes available
to the caller; every other `VMError` subclass burns all remaining gas and
erases the return data. Concretely, `Revert` is the unique subclass with
`burns_gas = False` and `erases_return_data = False`. -/
theorem revert_unique_gas_preserving :
    ∀ e : VMErrorKind,
      (burns_gas e = false ∧ erases_return_data e = false) ↔ e = .revert := by
  intro e
  cases e <;> decide

/-- C7: for every byte size, the memory-expansion gas cost equals
`words * GAS_MEMORY + words ^ 2 / GAS_MEMORY_QUADRATIC_DENOMINATOR` with
`words = ceil32 size / 32`, and that word count is exactly the 32-byte
ceiling division of the size. -/
theorem memory_gas_cost_formula :
    ∀ size_in_bytes : Nat,
      memory_gas_cost size_in_bytes
          = (ceil32 size_in_bytes / 32) * GAS_MEMORY
            + (ceil32 size_in_bytes / 32) ^ 2 / GAS_MEMORY_QUADRATIC_DENOMINATOR
        ∧ ceil32 size_in_bytes / 32 = (size_in_bytes + 31) / 32 := by
  intro s
  refine ⟨rfl, ?_⟩
  unfold ceil32
  split <;> omega

/-- The reversed scan returns the entry with the greatest start block at
most the target, and returns nothing exactly when every start block
exceeds the target, provided the scanned list is strictly descending in
start block. -/
theorem scan_reversed_spec {V : Type} (block_number : Nat) :
    ∀ l : List (Nat × V), l.Pairwise (fun a b => b.1 < a.1) →
      (∀ v, scan_reversed block_number l = some v →
          ∃ s, (s, v) ∈ l ∧ s ≤ block_number ∧
            ∀ p ∈ l, p.1 ≤ block_number → p.1 ≤ s)
      ∧ (scan_reversed block_number l = none ↔
          ∀ p ∈ l, block_number < p.1) := by
  intro l
  induction l with
  | nil =>
    intro _
    refine ⟨?_, ?_⟩
    · intro v hv
      cases hv
    · simp [scan_reversed]
  | cons hd rest ih =>
    intro hpw
    obtain ⟨s, v⟩ := hd
    rw [List.pairwise_cons] at hpw
    obtain ⟨hhd, hrest⟩ := hpw
    obtain ⟨ihsome, ihnone⟩ := ih hrest
    by_cases hle : block_number ≥ s
    · refine ⟨?_, ?_⟩
      · intro v' hv'
        rw [scan_reversed, if_pos hle] at hv'
        obtain rfl : v = v' := by injection hv'
        refine ⟨s, List.mem_cons_self _ _, hle, ?_⟩
        intro p hp _
        rcases List.mem_cons.mp hp with h | h
        · rw [h]
        · exact le_of_lt (hhd p h)
      · rw [scan_reversed, if_pos hle]
        constructor
        · intro h; cases h
        · intro h
          exact absurd (h (s, v) (List.mem_cons_self _ _)) (by omega)
    · push_neg at hle
      rw [scan_reversed, if_neg (by omega)]
      refine ⟨?_, ?_⟩
      · intro v' hv'
        obtain ⟨s', hmem, hs'le, hmax⟩ := ihsome v' hv'
        refine ⟨s', List.mem_cons_of_mem _ hmem, hs'le, ?_⟩
        intro p hp hple
        rcases List.mem_cons.mp hp with h | h
        · exfalso; rw [h] at hple; omega
        · exact hmax p h hple
      · rw [ihnone]
        constructor
        · intro h p hp
          rcases List.mem_cons.mp hp with hh | hh
          · rw [hh]; exact hle
          · exact h p hh
        · intro h p hp
          exact h p (List.mem_cons_of_mem _ hp)

/-- C5: given a configuration sorted ascending by starting block,
`get_vm_class_for_block_number` returns the rule-set whose starting block
is the greatest one at most the block number, and fails with `VMNotFound`
(the spec's `NoRuleSetAvailable`) exactly when the block number precedes
every entry's starting block. -/
theorem get_vm_class_glb {V : Type} (vm_configuration : List (Nat × V))
    (hsorted : vm_configuration.Pairwise (fun a b => a.1 < b.1))
    (block_number : Nat) :
    (∀ v, get_vm_class_for_block_number vm_configuration block_number = .ok v →
        ∃ s, (s, v) ∈ vm_configuration ∧ s ≤ block_number ∧
          ∀ p ∈ vm_configuration, p.1 ≤ block_number → p.1 ≤ s)
    ∧ (get_vm_class_for_block_number vm_configuration block_number
          = .error .vmNotFound
        ↔ ∀ p ∈ vm_configuration, block_number < p.1) := by
  have hrev : vm_configuration.reverse.Pairwise (fun a b => b.1 < a.1) :=
    List.pairwise_reverse.mpr hsorted
  obtain ⟨hsome, hnone⟩ := scan_reversed_spec block_number _ hrev
  constructor
  · intro v hv
    unfold get_vm_class_for_block_number at hv
    cases hscan : scan_reversed block_number vm_configuration.reverse with
    | none => rw [hscan] at hv; cases hv
    | some v' =>
      rw [hscan] at hv
      obtain rfl : v' = v := by injection hv
      obtain ⟨s, hmem, hle, hmax⟩ := hsome v' hscan
      exact ⟨s, List.mem_reverse.mp hmem, hle,
        fun p hp => hmax p (List.mem_reverse.mpr hp)⟩
  · unfold get_vm_class_for_block_number
    cases hscan : scan_reversed block_number vm_configuration.reverse with
    | none =>
      simp only [hscan]
      constructor
      · intro _ p hp
        exact (hnone.mp hscan) p (List.mem_reverse.mpr hp)
      · intro _; trivial
    | some v' =>
      simp only [hscan]
      constructor
      · intro h; cases h
      · intro h
        exfalso
        have := hnone.mpr (fun p hp => h p (List.mem_reverse.mp hp))
        rw [hscan] at this; cases this

/-- Witness for C5 at a concrete sorted configuration: two rule-sets
starting at blocks 0 and 5, queried at block 7. -/
theorem get_vm_class_glb_witness :
    ([((0 : Nat), (10 : Nat)), (5, 20)].Pairwise (fun a b => a.1 < b.1))
    ∧ ((∀ v, get_vm_class_for_block_number [((0 : Nat), (10 : Nat)), (5, 20)] 7
            = .ok v →
          ∃ s, (s, v) ∈ [((0 : Nat), (10 : Nat)), (5, 20)] ∧ s ≤ 7 ∧
            ∀ p ∈ [((0 : Nat), (10 : Nat)), (5, 20)], p.1 ≤ 7 → p.1 ≤ s)
      ∧ (get_vm_class_for_block_number [((0 : Nat), (10 : Nat)), (5, 20)] 7
            = .error .vmNotFound
          ↔ ∀ p ∈ [((0 : Nat), (10 : Nat)), (5, 20)], 7 < p.1)) :=
  ⟨by decide, get_vm_class_glb [((0 : Nat), (10 : Nat)), (5, 20)] (by decide) 7⟩

/-- A successful run of the pairwise validation loop implies every adjacent
parent/child pair is correctly linked. -/
theorem validate_chain_go_ok_linked
    (validate_header : HeaderLink → HeaderLink → Except Unit Unit)
    (validate_seal : HeaderLink → Except Unit Unit)
    (indices_to_check_seal : Nat → Bool) :
    ∀ (l : List HeaderLink) (i : Nat) (parent : HeaderLink),
      validate_chain_go validate_header validate_seal indices_to_check_seal
          i parent l = .ok () →
      chain_linked parent l = true := by
  intro l
  induction l with
  | nil => intro _ _ _; rfl
  | cons child rest ih =>
    intro i parent hok
    rw [validate_chain_go] at hok
    by_cases hlink : child.parent_hash = parent.header_hash
    · rw [if_neg (by simpa using hlink)] at hok
      rw [chain_linked, Bool.and_eq_true, beq_iff_eq]
      refine ⟨hlink, ?_⟩
      cases hvh : validate_header child parent with
      | error e => rw [hvh] at hok; cases hok
      | ok u =>
        rw [hvh] at hok
        by_cases hseal : indices_to_check_seal i = true
        · rw [if_pos hseal] at hok
          cases hvs : validate_seal child with
          | error e => rw [hvs] at hok; cases hok
          | ok u' => rw [hvs] at hok; exact ih (i + 1) child hok
        · rw [if_neg hseal] at hok
          exact ih (i + 1) child hok
    · rw [if_pos (by simpa using hlink)] at hok
      cases hok

/-- C8: `validate_chain` rejects any contiguous header sequence in which
some child's declared parent hash differs from its predecessor's hash,
whatever the per-rule-set header checks, the seal checks and the sampling
do: the call cannot return normally, it raises a validation failure. -/
theorem validate_chain_rejects_bad_linkage
    (validate_header : HeaderLink → HeaderLink → Except Unit Unit)
    (validate_seal : HeaderLink → Except Unit Unit)
    (sample : Nat → Bool) (seal_check_random_sample_rate : Nat)
    (root : HeaderLink) (descendants : List HeaderLink)
    (hbad : chain_linked root descendants = false) :
    ∃ e, validate_chain validate_header validate_seal sample
        seal_check_random_sample_rate root descendants = .error e := by
  cases hres : validate_chain validate_header validate_seal sample
      seal_check_random_sample_rate root descendants with
  | error e => exact ⟨e, rfl⟩
  | ok u =>
    exfalso
    obtain rfl : u = () := rfl
    unfold validate_chain at hres
    have := validate_chain_go_ok_linked _ _ _ descendants 0 root hres
    rw [this] at hbad
    cases hbad

/-- Witness for C8: a two-header chain whose single descendant declares
parent hash 6 while the root hashes to 5 is rejected. -/
theorem validate_chain_rejects_bad_linkage_witness :
    (chain_linked ⟨0, 5⟩ [⟨6, 7⟩] = false)
    ∧ ∃ e, validate_chain (fun _ _ => .ok ()) (fun _ => .ok ())
        (fun _ => false) 1 ⟨0, 5⟩ [⟨6, 7⟩] = .error e :=
  ⟨by decide,
   validate_chain_rejects_bad_linkage (fun _ _ => .ok ()) (fun _ => .ok ())
     (fun _ => false) 1 ⟨0, 5⟩ [⟨6, 7⟩] (by decide)⟩

/-- Running the transaction loop on a concatenated list first runs the
left part; only when that part finishes normally does the right part run,
picking up the accumulated state and result components. -/
theorem apply_all_go_append {Tx Receipt Comp Header : Type}
    (c : VMCollab Tx Receipt Comp Header) (l₁ l₂ : List Tx) (st : VMState)
    (acc : TxAcc Tx Receipt Comp Header) :
    apply_all_transactions_go c (l₁ ++ l₂) st acc =
      match apply_all_transactions_go c l₁ st acc with
      | (st', .ok (h, a, r, cs)) =>
        apply_all_transactions_go c l₂ st' ⟨h, a, r, cs⟩
      | (st', .error e) => (st', .error e) := by
  induction l₁ generalizing st acc with
  | nil =>
    obtain ⟨ph, ats, rs, cps⟩ := acc
    simp [apply_all_transactions_go]
  | cons t rest ih =>
    rw [List.cons_append]
    simp only [apply_all_transactions_go]
    cases happ : apply_transaction c acc.previous_header t st.snapshot.2 with
    | mk st1 res =>
      cases res with
      | error e =>
        cases e
        · simpa using ih st1 acc
        · simp
      | ok p =>
        obtain ⟨receipt, computation⟩ := p
        simpa using ih st1 _

/-- Structure of a normal completion of the transaction loop: the three
result lists extend the accumulator by equal-length segments, the result
header is the fold of `add_receipt_to_header` over the new receipts, the
newly applied transactions form a sublist of the input, and each applied
transaction sits at the same position as the receipt and computation that
`apply_transaction` returned for it. -/
theorem apply_all_go_spec {Tx Receipt Comp Header : Type}
    (c : VMCollab Tx Receipt Comp Header) :
    ∀ (transactions : List Tx) (st : VMState)
      (acc : TxAcc Tx Receipt Comp Header) (st' : VMState) (h : Header)
      (a : List Tx) (r : List Receipt) (cs : List Comp),
      apply_all_transactions_go c transactions st acc
          = (st', .ok (h, a, r, cs)) →
      ∃ a₂ r₂ c₂,
        a = acc.applied_transactions ++ a₂
        ∧ r = acc.receipts ++ r₂
        ∧ cs = acc.computations ++ c₂
        ∧ a₂.length = r₂.length ∧ a₂.length = c₂.length
        ∧ h = r₂.foldl c.add_receipt_to_header acc.previous_header
        ∧ a₂.Sublist transactions
        ∧ ∀ p ∈ a₂.zip (r₂.zip c₂), ∃ st₀ hdr,
            (apply_transaction c hdr p.1 st₀).2 = .ok p.2 := by
  intro txs
  induction txs with
  | nil =>
    intro st acc st' h a r cs heq
    rw [apply_all_transactions_go] at heq
    simp only [Prod.mk.injEq, Except.ok.injEq] at heq
    obtain ⟨rfl, rfl, rfl, rfl, rfl⟩ := heq
    refine ⟨[], [], [], by simp, by simp, by simp, rfl, rfl, rfl,
      List.nil_sublist _, by simp⟩
  | cons t rest ih =>
    intro st acc st' h a r cs heq
    rw [apply_all_transactions_go] at heq
    cases happ : apply_transaction c acc.previous_header t st.snapshot.2 with
    | mk st1 res =>
      rw [happ] at heq
      cases res with
      | error e =>
        cases e with
        | validationError =>
          obtain ⟨a₂, r₂, c₂, ha, hr, hc, hlen1, hlen2, hh, hsub, hzip⟩ :=
            ih st1 acc st' h a r cs heq
          exact ⟨a₂, r₂, c₂, ha, hr, hc, hlen1, hlen2, hh,
            hsub.cons t, hzip⟩
        | evmMissingData => simp at heq
      | ok p =>
        obtain ⟨receipt, computation⟩ := p
        obtain ⟨a₂, r₂, c₂, ha, hr, hc, hlen1, hlen2, hh, hsub, hzip⟩ :=
          ih st1 _ st' h a r cs heq
        refine ⟨t :: a₂, receipt :: r₂, computation :: c₂, ?_, ?_, ?_,
          by simpa using hlen1, by simpa using hlen2, ?_, hsub.cons₂ t, ?_⟩
        · simpa [List.append_assoc] using ha
        · simpa [List.append_assoc] using hr
        · simpa [List.append_assoc] using hc
        · simpa using hh
        · intro p hp
          simp only [List.zip_cons_cons, List.mem_cons] at hp
          rcases hp with hp | hp
          · subst hp
            exact ⟨st.snapshot.2, acc.previous_header, by rw [happ]⟩
          · exact hzip p hp

/-- C9: on every input on which it completes, `apply_all_transactions`
returns the four components in application order: the accumulated header
obtained by folding `add_receipt_to_header` (the rolling gas-used update)
over the receipts of the applied transactions, the tuple of transactions
actually applied (a sublist of the input, in input order), their receipts,
and their computations, with the i-th receipt and i-th computation being
exactly what `apply_transaction` returned for the i-th applied
transaction. -/
theorem apply_all_transactions_result_shape {Tx Receipt Comp Header : Type}
    (c : VMCollab Tx Receipt Comp Header) (vm_header base_header : Header)
    (transactions : List Tx) (st st' : VMState) (h : Header)
    (a : List Tx) (r : List Receipt) (cs : List Comp)
    (happ : apply_all_transactions c vm_header base_header transactions st
        = (st', .ok (h, a, r, cs))) :
    a.length = r.length ∧ a.length = cs.length
    ∧ h = r.foldl c.add_receipt_to_header base_header
    ∧ a.Sublist transactions
    ∧ ∀ p ∈ a.zip (r.zip cs), ∃ st₀ hdr,
        (apply_transaction c hdr p.1 st₀).2 = .ok p.2 := by
  unfold apply_all_transactions at happ
  by_cases hbn : c.block_number base_header = c.block_number vm_header
  · rw [if_pos hbn] at happ
    obtain ⟨a₂, r₂, c₂, ha, hr, hc, hlen1, hlen2, hh, hsub, hzip⟩ :=
      apply_all_go_spec c transactions st ⟨base_header, [], [], []⟩
        st' h a r cs happ
    simp only [List.nil_append] at ha hr hc
    subst ha hr hc
    exact ⟨hlen1, hlen2, hh, hsub, hzip⟩
  · rw [if_neg hbn] at happ
    simp at happ

/-- Witness for C9: applying two valid transactions from an empty state
returns two applied transactions with matching receipts and computations
and the rolled-up header. -/
theorem apply_all_transactions_result_shape_witness :
    [(2 : Nat), 3].length = [(1002 : Nat), 1003].length
    ∧ [(2 : Nat), 3].length = [(20 : Nat), 30].length
    ∧ (2005 : Nat)
        = [(1002 : Nat), 1003].foldl demoCollab.add_receipt_to_header 0
    ∧ [(2 : Nat), 3].Sublist [2, 3]
    ∧ ∀ p ∈ [(2 : Nat), 3].zip ([(1002 : Nat), 1003].zip [(20 : Nat), 30]),
        ∃ st₀ hdr, (apply_transaction demoCollab hdr p.1 st₀).2 = .ok p.2 :=
  apply_all_transactions_result_shape demoCollab 0 0 [2, 3] ⟨[], 0⟩
    ⟨[.change 3, .lock, .checkpoint 1, .change 2, .lock, .checkpoint 0], 2⟩
    2005 [2, 3] [1002, 1003] [20, 30] rfl

/-- C1: a transaction whose application raises a validation error (the
pre-execution intrinsic checks) is skipped by `apply_all_transactions`:
the loop continues with the remaining transactions, the skipped
transaction appears in none of the returned applied-transaction, receipt
and computation tuples, its receipt is never folded into the accumulated
header (so it contributes no gas), and the call as a whole completes
normally, returning exactly the results of the transactions around it. -/
theorem tx_validation_error_skips {Tx Receipt Comp Header : Type}
    (c : VMCollab Tx Receipt Comp Header) (vm_header base_header : Header)
    (l₁ l₂ : List Tx) (transaction : Tx) (st st₁ st₂ stF : VMState)
    (h₁ hF : Header) (a₁ aF : List Tx) (r₁ rF : List Receipt)
    (c₁ cF : List Comp)
    (hbn : c.block_number base_header = c.block_number vm_header)
    (hpre : apply_all_transactions_go c l₁ st ⟨base_header, [], [], []⟩
        = (st₁, .ok (h₁, a₁, r₁, c₁)))
    (hskip : apply_transaction c h₁ transaction st₁.snapshot.2
        = (st₂, .error .validationError))
    (hrest : apply_all_transactions_go c l₂ st₂ ⟨h₁, a₁, r₁, c₁⟩
        = (stF, .ok (hF, aF, rF, cF)))
    (hnot₁ : transaction ∉ l₁) (hnot₂ : transaction ∉ l₂) :
    apply_all_transactions c vm_header base_header
        (l₁ ++ transaction :: l₂) st = (stF, .ok (hF, aF, rF, cF))
    ∧ transaction ∉ aF := by
  constructor
  · unfold apply_all_transactions
    rw [if_pos hbn, apply_all_go_append, hpre]
    show apply_all_transactions_go c (transaction :: l₂) st₁ ⟨h₁, a₁, r₁, c₁⟩
        = (stF, .ok (hF, aF, rF, cF))
    rw [apply_all_transactions_go]
    dsimp only
    rw [hskip]
    exact hrest
  · intro hmem
    obtain ⟨a₂, r₂, c₂, ha, hr2, hc2, hl1, hl2, hh2, hsub, hzip⟩ :=
      apply_all_go_spec c l₂ st₂ ⟨h₁, a₁, r₁, c₁⟩ stF hF aF rF cF hrest
    obtain ⟨a₁', r₁', c₁', ha₁, hr1, hc1, hl1', hl2', hh1, hsub₁, hzip₁⟩ :=
      apply_all_go_spec c l₁ st ⟨base_header, [], [], []⟩ st₁ h₁ a₁ r₁ c₁ hpre
    rw [ha] at hmem
    rcases List.mem_append.mp hmem with hm | hm
    · have hm₁ : transaction ∈ a₁ := hm
      rw [ha₁] at hm₁
      have hm₂ : transaction ∈ a₁' := by simpa using hm₁
      exact hnot₁ (hsub₁.subset hm₂)
    · exact hnot₂ (hsub.subset hm)

/-- Witness for C1: of the transactions 2, 1, 3, the intrinsically invalid
transaction 1 is skipped; transactions 2 and 3 are applied and the call
completes normally. -/
theorem tx_validation_error_skips_witness :
    apply_all_transactions demoCollab 0 0 ([2] ++ 1 :: [3]) ⟨[], 0⟩
      = (⟨[.change 3, .lock, .checkpoint 2, .change 1, .lock, .checkpoint 1,
           .change 2, .lock, .checkpoint 0], 3⟩,
         .ok (2005, [2, 3], [1002, 1003], [20, 30]))
    ∧ (1 : Nat) ∉ [(2 : Nat), 3] :=
  tx_validation_error_skips demoCollab 0 0 [2] [3] 1 ⟨[], 0⟩
    ⟨[.change 2, .lock, .checkpoint 0], 1⟩
    ⟨[.change 1, .lock, .checkpoint 1, .change 2, .lock, .checkpoint 0], 2⟩
    ⟨[.change 3, .lock, .checkpoint 2, .change 1, .lock, .checkpoint 1,
      .change 2, .lock, .checkpoint 0], 3⟩
    1002 2005 [2] [2, 3] [1002] [1002, 1003] [20] [20, 30]
    rfl rfl rfl rfl (by decide) (by decide)

/-- Unfolding equation of `drop_through_checkpoint` on a change entry. -/
theorem drop_through_checkpoint_cons_change (token k : Nat)
    (l : List JournalEntry) :
    drop_through_checkpoint token (.change k :: l)
      = drop_through_checkpoint token l := rfl

/-- Unfolding equation of `drop_through_checkpoint` on a lock entry. -/
theorem drop_through_checkpoint_cons_lock (token : Nat)
    (l : List JournalEntry) :
    drop_through_checkpoint token (.lock :: l)
      = drop_through_checkpoint token l := rfl

/-- Unfolding equation of `drop_through_checkpoint` on a checkpoint. -/
theorem drop_through_checkpoint_cons_chk (token t : Nat)
    (l : List JournalEntry) :
    drop_through_checkpoint token (.checkpoint t :: l)
      = if t = token then l else drop_through_checkpoint token l := rfl

/-- Reverting to a checkpoint discards exactly the entries recorded on top
of it, however many were added, as long as none of them reuses the
checkpoint's token. -/
theorem drop_through_checkpoint_restores (token : Nat) :
    ∀ (added rest : List JournalEntry),
      JournalEntry.checkpoint token ∉ added →
      drop_through_checkpoint token (added ++ .checkpoint token :: rest)
        = rest := by
  intro added
  induction added with
  | nil =>
    intro rest _
    rw [List.nil_append, drop_through_checkpoint_cons_chk, if_pos rfl]
  | cons e tl ih =>
    intro rest hnot
    rw [List.mem_cons, not_or] at hnot
    obtain ⟨hne, htl⟩ := hnot
    cases e with
    | change k =>
      rw [List.cons_append, drop_through_checkpoint_cons_change]
      exact ih rest htl
    | lock =>
      rw [List.cons_append, drop_through_checkpoint_cons_lock]
      exact ih rest htl
    | checkpoint t =>
      rw [List.cons_append, drop_through_checkpoint_cons_chk,
        if_neg (fun hgood => hne (by rw [hgood]))]
      exact ih rest htl

/-- C2: when applying a transaction fails because required state data is
missing (`EVMMissingData`), `apply_all_transactions` reverts the state to
the snapshot taken immediately before that transaction — restoring the
journal exactly to its pre-transaction contents — and propagates the
failure to the caller; the transaction is not skipped and no later
transaction is attempted (the result is the same whatever follows). -/
theorem missing_state_data_aborts {Tx Receipt Comp Header : Type}
    (c : VMCollab Tx Receipt Comp Header) (vm_header base_header : Header)
    (l₁ l₂ : List Tx) (transaction : Tx) (st st₁ st₂ : VMState)
    (h₁ : Header) (a₁ : List Tx) (r₁ : List Receipt) (c₁ : List Comp)
    (added : List JournalEntry)
    (hbn : c.block_number base_header = c.block_number vm_header)
    (hpre : apply_all_transactions_go c l₁ st ⟨base_header, [], [], []⟩
        = (st₁, .ok (h₁, a₁, r₁, c₁)))
    (hfail : apply_transaction c h₁ transaction st₁.snapshot.2
        = (st₂, .error .evmMissingData))
    (hmono : st₂.journal
        = added ++ (VMState.lock_changes st₁.snapshot.2).journal)
    (hfresh : JournalEntry.checkpoint st₁.snapshot.1 ∉ added) :
    apply_all_transactions c vm_header base_header
        (l₁ ++ transaction :: l₂) st
      = (st₂.revert st₁.snapshot.1, .error .evmMissingData)
    ∧ (st₂.revert st₁.snapshot.1).journal = st₁.journal := by
  constructor
  · unfold apply_all_transactions
    rw [if_pos hbn, apply_all_go_append, hpre]
    show apply_all_transactions_go c (transaction :: l₂) st₁ ⟨h₁, a₁, r₁, c₁⟩
        = (st₂.revert st₁.snapshot.1, .error .evmMissingData)
    rw [apply_all_transactions_go]
    dsimp only
    rw [hfail]
  · show drop_through_checkpoint st₁.snapshot.1 st₂.journal = st₁.journal
    have hjle : (VMState.lock_changes st₁.snapshot.2).journal
        = JournalEntry.lock :: .checkpoint st₁.snapshot.1 :: st₁.journal := rfl
    rw [hmono, hjle]
    have hfresh' : JournalEntry.checkpoint st₁.snapshot.1
        ∉ added ++ [JournalEntry.lock] := by
      intro hmem
      rcases List.mem_append.mp hmem with hmm | hmm
      · exact hfresh hmm
      · simp at hmm
    have hres := drop_through_checkpoint_restores st₁.snapshot.1
      (added ++ [JournalEntry.lock]) st₁.journal hfresh'
    simpa [List.append_assoc] using hres

/-- Witness for C2: transaction 4 hits missing state data; the whole call
fails with `evmMissingData` and the journal is restored to its contents
after transaction 2 alone. -/
theorem missing_state_data_aborts_witness :
    apply_all_transactions demoCollab 0 0 ([2] ++ 4 :: [3]) ⟨[], 0⟩
      = ((VMState.revert
            ⟨[.change 4, .lock, .checkpoint 1, .change 2, .lock,
              .checkpoint 0], 2⟩
            (VMState.snapshot ⟨[.change 2, .lock, .checkpoint 0], 1⟩).1),
         .error .evmMissingData)
    ∧ (VMState.revert
          ⟨[.change 4, .lock, .checkpoint 1, .change 2, .lock,
            .checkpoint 0], 2⟩
          (VMState.snapshot ⟨[.change 2, .lock, .checkpoint 0], 1⟩).1).journal
        = (⟨[.change 2, .lock, .checkpoint 0], 1⟩ : VMState).journal :=
  missing_state_data_aborts demoCollab 0 0 [2] [3] 4 ⟨[], 0⟩
    ⟨[.change 2, .lock, .checkpoint 0], 1⟩
    ⟨[.change 4, .lock, .checkpoint 1, .change 2, .lock, .checkpoint 0], 2⟩
    1002 [2] [1002] [20] [.change 4]
    rfl rfl rfl rfl (by decide)

/-- C10: when a transaction is skipped after a validation error, the
snapshot taken immediately before it is neither reverted nor committed:
the loop carries on into the remaining transactions with the state exactly
as the failed attempt left it, so the journal still holds every change the
attempt recorded, the `lock_changes` mark laid down at the start of
`apply_transaction`, and the still-unresolved checkpoint; only the
`EVMMissingData` branch ever reverts that snapshot. -/
theorem skipped_tx_keeps_partial_changes {Tx Receipt Comp Header : Type}
    (c : VMCollab Tx Receipt Comp Header) (l₂ : List Tx) (transaction : Tx)
    (st₁ st₂ : VMState) (acc : TxAcc Tx Receipt Comp Header)
    (added : List JournalEntry)
    (hskip : apply_transaction c acc.previous_header transaction
        st₁.snapshot.2 = (st₂, .error .validationError))
    (hadded : st₂.journal
        = added ++ (VMState.lock_changes st₁.snapshot.2).journal) :
    apply_all_transactions_go c (transaction :: l₂) st₁ acc
        = apply_all_transactions_go c l₂ st₂ acc
    ∧ st₂.journal
        = added ++ .lock :: .checkpoint st₁.snapshot.1 :: st₁.journal
    ∧ JournalEntry.checkpoint st₁.snapshot.1 ∈ st₂.journal
    ∧ JournalEntry.lock ∈ st₂.journal := by
  refine ⟨?_, ?_, ?_, ?_⟩
  · rw [apply_all_transactions_go]
    dsimp only
    rw [hskip]
  · exact hadded
  · rw [hadded]
    exact List.mem_append.mpr
      (Or.inr (List.mem_cons_of_mem _ (List.mem_cons_self _ _)))
  · rw [hadded]
    exact List.mem_append.mpr (Or.inr (List.mem_cons_self _ _))

/-- Witness for C10: after skipping the invalid transaction 1, the loop
continues on the un-reverted state whose journal still holds the attempt's
change, the lock mark and the open checkpoint. -/
theorem skipped_tx_keeps_partial_changes_witness :
    apply_all_transactions_go demoCollab ([1, 3] : List Nat)
        ⟨[.change 2, .lock, .checkpoint 0], 1⟩ ⟨1002, [2], [1002], [20]⟩
      = apply_all_transactions_go demoCollab [3]
          ⟨[.change 1, .lock, .checkpoint 1, .change 2, .lock,
            .checkpoint 0], 2⟩ ⟨1002, [2], [1002], [20]⟩
    ∧ (⟨[.change 1, .lock, .checkpoint 1, .change 2, .lock,
         .checkpoint 0], 2⟩ : VMState).journal
        = [.change 1]
            ++ .lock
              :: .checkpoint
                  (VMState.snapshot
                    ⟨[.change 2, .lock, .checkpoint 0], 1⟩).1
                :: (⟨[.change 2, .lock, .checkpoint 0], 1⟩ : VMState).journal
    ∧ JournalEntry.checkpoint
          (VMState.snapshot ⟨[.change 2, .lock, .checkpoint 0], 1⟩).1
        ∈ (⟨[.change 1, .lock, .checkpoint 1, .change 2, .lock,
             .checkpoint 0], 2⟩ : VMState).journal
    ∧ JournalEntry.lock
        ∈ (⟨[.change 1, .lock, .checkpoint 1, .change 2, .lock,
             .checkpoint 0], 2⟩ : VMState).journal :=
  skipped_tx_keeps_partial_changes demoCollab [3] 1
    ⟨[.change 2, .lock, .checkpoint 0], 1⟩
    ⟨[.change 1, .lock, .checkpoint 1, .change 2, .lock, .checkpoint 0], 2⟩
    ⟨1002, [2], [1002], [20]⟩ [.change 1] rfl rfl

/-- C4: every normal return of `apply_all_transactions` is a four-element
tuple, while `VM.import_block`, `Chain.build_block_with_transactions` and
`MiningChain.mine_all` each destructure it into three assignment targets;
the destructuring therefore raises `ValueError` (too many values to
unpack) in all three callers instead of producing a block. -/
theorem apply_all_four_vs_three_destructure {Tx Receipt Comp Header : Type}
    (c : VMCollab Tx Receipt Comp Header) (vm_header base_header : Header)
    (transactions : List Tx) (st st' : VMState)
    (vals : List (PyObj Tx Receipt Comp Header))
    (hok : apply_all_transactions_py c vm_header base_header transactions st
        = (st', .ok vals)) :
    import_block_destructure vals = .error .tooManyValues
    ∧ build_block_with_transactions_destructure vals
        = .error .tooManyValues
    ∧ mine_all_destructure vals = .error .tooManyValues := by
  have hlen : vals.length = 4 := by
    unfold apply_all_transactions_py at hok
    cases happ : apply_all_transactions c vm_header base_header
        transactions st with
    | mk s r =>
      rw [happ] at hok
      cases r with
      | ok q =>
        obtain ⟨h, a, rr, cse⟩ := q
        simp only [Prod.mk.injEq, Except.ok.injEq] at hok
        rw [← hok.2]
        rfl
      | error e => simp at hok
  refine ⟨?_, ?_, ?_⟩ <;>
    simp [import_block_destructure,
      build_block_with_transactions_destructure, mine_all_destructure,
      py_tuple_unpack, hlen]

/-- Witness for C4: the concrete four-element return of a two-transaction
run makes all three callers' destructuring raise. -/
theorem apply_all_four_vs_three_destructure_witness :
    import_block_destructure
        [PyObj.headerVal (2005 : Nat), PyObj.txsVal [(2 : Nat), 3],
         PyObj.receiptsVal [(1002 : Nat), 1003],
         PyObj.compsVal [(20 : Nat), 30]]
      = .error .tooManyValues
    ∧ build_block_with_transactions_destructure
        [PyObj.headerVal (2005 : Nat), PyObj.txsVal [(2 : Nat), 3],
         PyObj.receiptsVal [(1002 : Nat), 1003],
         PyObj.compsVal [(20 : Nat), 30]]
      = .error .tooManyValues
    ∧ mine_all_destructure
        [PyObj.headerVal (2005 : Nat), PyObj.txsVal [(2 : Nat), 3],
         PyObj.receiptsVal [(1002 : Nat), 1003],
         PyObj.compsVal [(20 : Nat), 30]]
      = .error .tooManyValues :=
  apply_all_four_vs_three_destructure demoCollab 0 0 [2, 3] ⟨[], 0⟩
    ⟨[.change 3, .lock, .checkpoint 1, .change 2, .lock, .checkpoint 0], 2⟩
    _ rfl

/-- C6 amended: when a block's declared parent hash is absent from the
chain database, `Chain.import_block` fails with `eth_utils.ValidationError`
(whose message signals the absent parent) before executing any
transaction and without mutating canonical state; the repository's
`ParentNotFound` exception exists but is not the one raised. -/
theorem import_block_missing_parent_validation_error {Header R : Type}
    (lookup_header : Nat → Option Header)
    (continue_import : Header → Except ChainImportExc R)
    (parent_hash : Nat)
    (habsent : lookup_header parent_hash = none) :
    chain_import_block lookup_header continue_import parent_hash
        = .error .validationError := by
  unfold chain_import_block
  rw [habsent]

/-- Witness for the amended C6: an empty chain database makes the import
fail with `ValidationError` straight away. -/
theorem import_block_missing_parent_validation_error_witness :
    ((fun _ => (none : Option Nat)) 0 = none)
    ∧ chain_import_block (fun _ => (none : Option Nat))
        (fun _ => .ok (0 : Nat)) 0 = .error .validationError :=
  ⟨rfl, import_block_missing_parent_validation_error
    (fun _ => (none : Option Nat)) (fun _ => .ok (0 : Nat)) 0 rfl⟩

/-- Counterexample to C6 as stated: importing a block over an empty chain
database fails with `ValidationError`, which is a different exception
class from `ParentNotFound` (an `except ParentNotFound` handler would not
catch it), so the claim that the failure is `ParentNotFound` is false at
this input. -/
theorem import_block_missing_parent_not_parentNotFound :
    chain_import_block (fun _ => (none : Option Nat))
        (fun _ => .ok (0 : Nat)) 0 = .error .validationError
    ∧ ChainImportExc.validationError ≠ ChainImportExc.parentNotFound :=
  ⟨rfl, by decide⟩

end XVM
